import Mathlib

/-!
Shallow embedding of the EcoPath route-evaluation pipeline
(src/ecoPath-api/index.js). JavaScript numbers are modelled as rationals
(all constants in the source are exactly representable and the score
arithmetic at the inputs considered is exact), fallible external calls as
`Except String`, and absent JSON fields as `Option`.
-/

namespace EcoPath

/-- Scoring step function for air quality, from getAQIScore in index.js:
maps an AQI reading to a 0-100 sub-score by inclusive upper bounds. -/
def getAQIScore (aqi : ℚ) : ℚ :=
  if aqi ≤ 50 then 100
  else if aqi ≤ 100 then 80
  else if aqi ≤ 200 then 60
  else if aqi ≤ 300 then 40
  else if aqi ≤ 400 then 20
  else 5

/-- Scoring step function for distance, from getDistanceScore in index.js. -/
def getDistanceScore (distanceMeters : ℚ) : ℚ :=
  if distanceMeters ≤ 2000 then 100
  else if distanceMeters ≤ 5000 then 70
  else if distanceMeters ≤ 10000 then 40
  else 10

/-- Weighted green-index score, from calculateGreenIndex in index.js:
aqiScore * 0.6 + solarIndex * 0.3 + distanceScore * 0.1. -/
def calculateGreenIndex (distanceMeters aqi solarIndex : ℚ) : ℚ :=
  let aqiScore := getAQIScore aqi
  let distanceScore := getDistanceScore distanceMeters
  aqiScore * 0.6 + solarIndex * 0.3 + distanceScore * 0.1

/-- A latitude/longitude pair, as produced by getRouteMidpoint. -/
structure RoutePoint where
  lat : ℚ
  lng : ℚ
deriving DecidableEq

/-- The low 32 bits of a bit pattern, as JavaScript bitwise operators keep. -/
def wrap32 (n : Nat) : Nat := n % 2 ^ 32

/-- Reinterpret an unsigned 32-bit pattern as a signed Int32 value. -/
def toInt32 (n : Nat) : Int :=
  if wrap32 n < 2 ^ 31 then (wrap32 n : Int) else (wrap32 n : Int) - 2 ^ 32

/-- One do-while accumulation loop of polyline.decode from the
@mapbox/polyline dependency used by getRouteMidpoint: per iteration
byte = charCodeAt(index++) - 63 and result |= (byte & 0x1f) << shift with
shift growing by 5, continuing while byte >= 0x20. Reading past the end of
the string yields NaN, whose masked contribution is 0 and which ends the
loop. Returns the accumulated 32-bit result pattern and the next index.
Fuel bounds the iterations; the index grows by one each step, so
codes.length + 1 always suffices. -/
def decodeChunkLoop : Nat → List Nat → Nat → Nat → Nat → Nat × Nat
  | 0, _, i, _, result => (result, i)
  | fuel + 1, codes, i, shift, result =>
    match codes[i]? with
    | none => (wrap32 result, i + 1)
    | some code =>
      let byte : Int := (code : Int) - 63
      let masked : Nat := (byte.emod 32).toNat
      let result' : Nat := wrap32 (result ||| wrap32 (masked <<< (shift % 32)))
      if 32 ≤ byte then decodeChunkLoop fuel codes (i + 1) (shift + 5) result'
      else (result', i + 1)

/-- Zigzag step of polyline.decode:
change = (result & 1) ? ~(result >> 1) : (result >> 1), with >> the
sign-propagating 32-bit shift (floor division by 2 of the signed value)
and ~ the bitwise complement. -/
def zigzagDecode (result : Nat) : Int :=
  let s := Int.fdiv (toInt32 result) 2
  if result % 2 = 1 then -s - 1 else s

/-- Outer while loop of polyline.decode: while index < length, decode a
latitude delta and a longitude delta and accumulate them into (lat, lng).
The index strictly increases every iteration, so fuel codes.length + 1
always suffices. -/
def decodeCoordLoop : Nat → List Nat → Nat → Int → Int → List (Int × Int)
  | 0, _, _, _, _ => []
  | fuel + 1, codes, i, lat, lng =>
    if i < codes.length then
      let r1 := decodeChunkLoop (codes.length + 1) codes i 0 0
      let latChange := zigzagDecode r1.1
      let r2 := decodeChunkLoop (codes.length + 1) codes r1.2 0 0
      let lngChange := zigzagDecode r2.1
      let lat' := lat + latChange
      let lng' := lng + lngChange
      (lat', lng') :: decodeCoordLoop fuel codes r2.2 lat' lng'
    else []

/-- polyline.decode from the @mapbox/polyline dependency at its default
precision 5: turns an encoded string into the ordered list of (lat, lng)
coordinates, each accumulated integer divided by 10^5. -/
def polylineDecode (s : String) : List (ℚ × ℚ) :=
  (decodeCoordLoop ((s.data.map Char.toNat).length + 1) (s.data.map Char.toNat) 0 0 0).map
    (fun p => ((p.1 : ℚ) / 100000, (p.2 : ℚ) / 100000))

/-- getRouteMidpoint from index.js: a falsy encodedPolyline (absent, or
the empty string) yields null; otherwise the decoded point at index
floor(count / 2) is returned. The source indexes points[mid] directly,
which never faults because a non-empty string never decodes to an empty
list (polylineDecode_ne_nil below). -/
def getRouteMidpoint (encodedPolyline : Option String) : Option RoutePoint :=
  match encodedPolyline with
  | none => none
  | some s =>
    if s = "" then none
    else
      let points := polylineDecode s
      (points[points.length / 2]?).map fun p => ⟨p.1, p.2⟩

theorem polylineDecode_nil : polylineDecode "" = [] := rfl

theorem polylineDecode_ne_nil (s : String) (h : s ≠ "") : polylineDecode s ≠ [] := by
  have hd : s.data ≠ [] := fun hnil => h (by
    cases s with
    | mk l => simp only at hnil; simp [hnil])
  have hlen : 0 < (s.data.map Char.toNat).length := by
    simp [List.length_map]
    exact List.length_pos.mpr hd
  unfold polylineDecode
  simp only [decodeCoordLoop]
  rw [if_pos hlen]
  simp

/-- One entry of the air-quality response's indexes array; its aqi field
may be absent. -/
structure AqiIndexEntry where
  aqi : Option ℚ
deriving DecidableEq

/-- The air-quality provider response shape read by the handler; the
indexes array itself may be absent. -/
structure AirQualityData where
  indexes : Option (List AqiIndexEntry)
deriving DecidableEq

/-- The aqi extraction in the /get-green-route handler:
aqi = air.indexes?.[0]?.aqi || 100. The optional chain yields undefined
when indexes is absent or empty or the first entry has no aqi, and the ||
also replaces a falsy number, so a reported aqi of 0 becomes 100. -/
def extractAqi (air : AirQualityData) : ℚ :=
  match air.indexes with
  | none => 100
  | some entries =>
    match entries.head? with
    | none => 100
    | some entry =>
      match entry.aqi with
      | none => 100
      | some v => if v = 0 then 100 else v

/-- The record {solarIndex, shadeLabel} returned by getSolarIndex. -/
structure SolarInfo where
  solarIndex : ℚ
  shadeLabel : String
deriving DecidableEq

/-- The solar provider response shape read by getSolarIndex: the optional
chain response.data?.solarPotential?.wholeRoofStats?.yearlySunlightHours
collapses to one optional number. -/
structure SolarData where
  yearlySunlightHours : Option ℚ
deriving DecidableEq

/-- Success branch of getSolarIndex from index.js:
sunHours = ...yearlySunlightHours || 2000 (an absent field, and likewise
a reported 0, become 2000); solarIndex = 50 when sunHours < 1500, 40 when
< 2000, else 30; shadeLabel from solarIndex by the >= 45 / >= 35 tests. -/
def solarFromData (data : SolarData) : SolarInfo :=
  let sunHours : ℚ :=
    match data.yearlySunlightHours with
    | none => 2000
    | some v => if v = 0 then 2000 else v
  let solarIndex : ℚ :=
    if sunHours < 1500 then 50
    else if sunHours < 2000 then 40
    else 30
  { solarIndex := solarIndex
    shadeLabel :=
      if solarIndex ≥ 45 then "High Shade"
      else if solarIndex ≥ 35 then "Moderate Shade"
      else "Low Shade" }

/-- getSolarIndex from index.js: the catch branch turns any provider
failure into {solarIndex: 30, shadeLabel: "Unknown"}; on success the
numeric mapping of solarFromData applies. -/
def getSolarIndex (resp : Except String SolarData) : SolarInfo :=
  match resp with
  | .error _ => { solarIndex := 30, shadeLabel := "Unknown" }
  | .ok data => solarFromData data

/-- The selected-route summary handed to the explanation collaborator. -/
structure ExplanationInput where
  distanceMeters : ℚ
  aqi : ℚ
  greenIndex : ℚ
  shadeLabel : String
  avgAQI : ℚ
  minAQI : ℚ
  maxAQI : ℚ
deriving DecidableEq

/-- The fixed sentence of getGeminiExplanation's catch branch. -/
def fallbackSentence : String :=
  "This route is recommended because it has cleaner air, a reasonable walking distance, and better shade for comfort."

/-- getGeminiExplanation from index.js: the collaborator's text on
success, the fixed fallback sentence on any failure. -/
def getGeminiExplanation (result : Except String String) : String :=
  match result with
  | .ok text => text
  | .error _ => fallbackSentence

/-- One candidate route from the routing provider. -/
structure CandidateRoute where
  distanceMeters : ℚ
  duration : String
  encodedPolyline : Option String
deriving DecidableEq

/-- One evaluated-route record pushed by the handler's loop. -/
structure EvaluatedRoute where
  routeIndex : Nat
  distanceMeters : ℚ
  duration : String
  aqi : ℚ
  greenIndex : ℚ
  solar : SolarInfo
  encodedPolyline : Option String
deriving DecidableEq

/-- The external collaborators of one /get-green-route request: the
routing call's outcome, and per sample point the air-quality and solar
calls' outcomes, plus the generative text collaborator. -/
structure Providers where
  routing : Except String (List CandidateRoute)
  airQuality : RoutePoint → Except String AirQualityData
  solar : RoutePoint → Except String SolarData
  gemini : ExplanationInput → Except String String

/-- One iteration of the handler's route loop (index.js lines 200-231):
aqi defaults to 100 and solar to {30, "Unknown"}, both overridden when a
midpoint exists; a failed air-quality call escapes to the handler's
catch, aborting the whole loop. -/
def evalRoute (env : Providers) (i : Nat) (route : CandidateRoute) :
    Except String EvaluatedRoute :=
  match getRouteMidpoint route.encodedPolyline with
  | none =>
    .ok { routeIndex := i
          distanceMeters := route.distanceMeters
          duration := route.duration
          aqi := 100
          greenIndex := calculateGreenIndex route.distanceMeters 100 30
          solar := { solarIndex := 30, shadeLabel := "Unknown" }
          encodedPolyline := route.encodedPolyline }
  | some p =>
    match env.airQuality p with
    | .error e => .error e
    | .ok air =>
      let aqi := extractAqi air
      let solar := getSolarIndex (env.solar p)
      .ok { routeIndex := i
            distanceMeters := route.distanceMeters
            duration := route.duration
            aqi := aqi
            greenIndex := calculateGreenIndex route.distanceMeters aqi solar.solarIndex
            solar := solar
            encodedPolyline := route.encodedPolyline }

/-- The handler's sequential for loop over candidate routes starting at
index i: routes are evaluated in order and the first air-quality failure
aborts the loop with no partial list. -/
def evalRoutes (env : Providers) :
    Nat → List CandidateRoute → Except String (List EvaluatedRoute)
  | _, [] => .ok []
  | i, r :: rs =>
    match evalRoute env i r with
    | .error e => .error e
    | .ok er =>
      match evalRoutes env (i + 1) rs with
      | .error e => .error e
      | .ok ers => .ok (er :: ers)

/-- The reduce callback (a, b) => b.greenIndex > a.greenIndex ? b : a. -/
def pickGreener (a b : EvaluatedRoute) : EvaluatedRoute :=
  if b.greenIndex > a.greenIndex then b else a

/-- Array.prototype.reduce with no initial value, as used for bestRoute:
the head seeds a left fold over the tail; on an empty array JavaScript
throws a TypeError carrying the message below, which the handler's catch
turns into the failure response. -/
def bestRoute : List EvaluatedRoute → Except String EvaluatedRoute
  | [] => .error "Reduce of empty array with no initial value"
  | a :: rest => .ok (rest.foldl pickGreener a)

/-- The JSON body of a successful /get-green-route response. -/
structure GreenRouteResponse where
  message : String
  selected_route : EvaluatedRoute
  alternative_routes : List EvaluatedRoute
  explanation : String
deriving DecidableEq

/-- The /get-green-route handler (index.js lines 175-268): fetch routes,
evaluate each sequentially, reduce to the best route, aggregate AQI
statistics, obtain the explanation, and answer; any error thrown along
the way reaches the single catch and becomes the failure response
carrying the cause text. (Math.min and Math.max are only ever applied
after the reduce succeeded, hence on a non-empty list; the empty-list
case of the aggregation below is unreachable.) -/
def getGreenRoute (env : Providers) : Except String GreenRouteResponse :=
  match env.routing with
  | .error e => .error e
  | .ok routes =>
    match evalRoutes env 0 routes with
    | .error e => .error e
    | .ok evaluatedRoutes =>
      match bestRoute evaluatedRoutes with
      | .error e => .error e
      | .ok best =>
        let avgAQI :=
          (evaluatedRoutes.foldl (fun sum r => sum + r.aqi) 0) /
            (evaluatedRoutes.length : ℚ)
        let aqis := evaluatedRoutes.map (fun r => r.aqi)
        let minAQI := match aqis with
          | [] => 0
          | x :: xs => xs.foldl min x
        let maxAQI := match aqis with
          | [] => 0
          | x :: xs => xs.foldl max x
        let explanation := getGeminiExplanation (env.gemini
          { distanceMeters := best.distanceMeters
            aqi := best.aqi
            greenIndex := best.greenIndex
            shadeLabel := best.solar.shadeLabel
            avgAQI := avgAQI
            minAQI := minAQI
            maxAQI := maxAQI })
        .ok { message := "Green corridor selected"
              selected_route := best
              alternative_routes := evaluatedRoutes
              explanation := explanation }

theorem getAQIScore_bounds (a : ℚ) : 5 ≤ getAQIScore a ∧ getAQIScore a ≤ 100 := by
  unfold getAQIScore
  split_ifs <;> norm_num

theorem getDistanceScore_bounds (d : ℚ) :
    10 ≤ getDistanceScore d ∧ getDistanceScore d ≤ 100 := by
  unfold getDistanceScore
  split_ifs <;> norm_num

/-- Decoding the standard two-segment example string yields the expected
coordinates (38.5, -120.2) and (40.7, -120.95). -/
theorem polylineDecode_example :
    polylineDecode "_p~iF~ps|U_ulLnnqC" =
      [(77 / 2, -601 / 5), (407 / 10, -2419 / 20)] := by
  have h : decodeCoordLoop ((("_p~iF~ps|U_ulLnnqC".data.map Char.toNat).length) + 1)
      ("_p~iF~ps|U_ulLnnqC".data.map Char.toNat) 0 0 0 =
      [(3850000, -12020000), (4070000, -12095000)] := by decide
  unfold polylineDecode
  rw [h]
  norm_num

/-- C1 counterexample: at (distance, aqi, solarIndex) = (900, 250, 50)
the code yields greenIndex 49, not the 61 the claim asserts — an AQI of
250 falls in the ≤ 300 bucket and scores 40, so the result is
0.6 * 40 + 0.3 * 50 + 0.1 * 100 = 49. -/
theorem C1_green_index_counterexample :
    calculateGreenIndex 900 250 50 = 49 ∧ (49 : ℚ) ≠ 61 := by
  constructor
  · norm_num [calculateGreenIndex, getAQIScore, getDistanceScore]
  · norm_num

/-- C1 (amended): the Green Index is
0.6 * aqiScore(aqi) + 0.3 * solarIndex + 0.1 * distanceScore(distance),
with the stated inclusive step buckets for aqiScore and distanceScore and
solarIndex used directly; the three example inputs (1000, 40, 30),
(1200, 90, 40) and (900, 250, 50) yield 79, 70 and 49 respectively (not
61 for the third: aqi 250 scores 40, not 60). -/
theorem C1_green_index :
    (∀ d a s : ℚ, calculateGreenIndex d a s =
      0.6 * getAQIScore a + 0.3 * s + 0.1 * getDistanceScore d) ∧
    (∀ a : ℚ, a ≤ 50 → getAQIScore a = 100) ∧
    (∀ a : ℚ, 50 < a → a ≤ 100 → getAQIScore a = 80) ∧
    (∀ a : ℚ, 100 < a → a ≤ 200 → getAQIScore a = 60) ∧
    (∀ a : ℚ, 200 < a → a ≤ 300 → getAQIScore a = 40) ∧
    (∀ a : ℚ, 300 < a → a ≤ 400 → getAQIScore a = 20) ∧
    (∀ a : ℚ, 400 < a → getAQIScore a = 5) ∧
    (∀ d : ℚ, d ≤ 2000 → getDistanceScore d = 100) ∧
    (∀ d : ℚ, 2000 < d → d ≤ 5000 → getDistanceScore d = 70) ∧
    (∀ d : ℚ, 5000 < d → d ≤ 10000 → getDistanceScore d = 40) ∧
    (∀ d : ℚ, 10000 < d → getDistanceScore d = 10) ∧
    calculateGreenIndex 1000 40 30 = 79 ∧
    calculateGreenIndex 1200 90 40 = 70 ∧
    calculateGreenIndex 900 250 50 = 49 := by
  refine ⟨fun d a s => by unfold calculateGreenIndex; ring,
    fun a h => ?_, fun a h1 h2 => ?_, fun a h1 h2 => ?_, fun a h1 h2 => ?_,
    fun a h1 h2 => ?_, fun a h => ?_,
    fun d h => ?_, fun d h1 h2 => ?_, fun d h1 h2 => ?_, fun d h => ?_,
    ?_, ?_, ?_⟩ <;>
    first
      | (unfold getAQIScore; split_ifs <;> linarith)
      | (unfold getDistanceScore; split_ifs <;> linarith)
      | norm_num [calculateGreenIndex, getAQIScore, getDistanceScore]

/-- Concrete instantiation of C1_green_index: the conditional bucket
clauses evaluated at 75 (aqi) and 7000 (distance). -/
theorem C1_green_index_witness :
    getAQIScore 75 = 80 ∧ getDistanceScore 7000 = 40 :=
  ⟨C1_green_index.2.2.1 75 (by norm_num) (by norm_num),
   C1_green_index.2.2.2.2.2.2.2.2.2.1 7000 (by norm_num) (by norm_num)⟩

/-- C3: for every evaluated route (aqi ≥ 0, distance ≥ 0, solarIndex one
of 30, 40, 50) the green index lies in [0, 100]; in fact aqiScore is in
[5, 100] and distanceScore in [10, 100], so the weighted sum lies in
[13, 85]. -/
theorem C3_green_index_bounds (d a s : ℚ) (hd : 0 ≤ d) (ha : 0 ≤ a)
    (hs : s = 30 ∨ s = 40 ∨ s = 50) :
    0 ≤ calculateGreenIndex d a s ∧ calculateGreenIndex d a s ≤ 100 := by
  obtain ⟨hq1, hq2⟩ := getAQIScore_bounds a
  obtain ⟨hd1, hd2⟩ := getDistanceScore_bounds d
  have hs1 : (30 : ℚ) ≤ s := by rcases hs with h | h | h <;> rw [h] <;> norm_num
  have hs2 : s ≤ 50 := by rcases hs with h | h | h <;> rw [h] <;> norm_num
  unfold calculateGreenIndex
  constructor <;> nlinarith [hq1, hq2, hd1, hd2, hs1, hs2]

/-- Concrete instantiation of C3_green_index_bounds at the first example
route (1000, 40, 30). -/
theorem C3_green_index_bounds_witness :
    0 ≤ calculateGreenIndex 1000 40 30 ∧ calculateGreenIndex 1000 40 30 ≤ 100 :=
  C3_green_index_bounds 1000 40 30 (by norm_num) (by norm_num) (Or.inl rfl)

/-- C6: the Geometry Resolver returns no sample point for an absent
encoded path or one that decodes to an empty point sequence, and
otherwise returns the decoded point at index floor(count / 2); for an
even count 2 * k that index is k, the later of the two middle points
k - 1 and k. -/
theorem C6_route_midpoint :
    getRouteMidpoint none = none ∧
    (∀ s, polylineDecode s = [] → getRouteMidpoint (some s) = none) ∧
    (∀ s, polylineDecode s ≠ [] →
      ∃ h : (polylineDecode s).length / 2 < (polylineDecode s).length,
        getRouteMidpoint (some s) = some
          ⟨((polylineDecode s).get ⟨(polylineDecode s).length / 2, h⟩).1,
           ((polylineDecode s).get ⟨(polylineDecode s).length / 2, h⟩).2⟩) ∧
    (∀ s k, (polylineDecode s).length = 2 * k →
      (polylineDecode s).length / 2 = k) := by
  refine ⟨rfl, fun s hs => ?_, fun s hs => ?_, fun s k hk => by omega⟩
  · by_cases he : s = ""
    · subst he; rfl
    · exact absurd hs (polylineDecode_ne_nil s he)
  · have he : s ≠ "" := fun h => hs (h ▸ polylineDecode_nil)
    have hlen : 0 < (polylineDecode s).length := List.length_pos.mpr hs
    have hidx : (polylineDecode s).length / 2 < (polylineDecode s).length :=
      Nat.div_lt_self hlen (by norm_num)
    refine ⟨hidx, ?_⟩
    simp only [getRouteMidpoint, if_neg he]
    rw [List.getElem?_eq_getElem hidx]
    rfl

/-- Concrete instantiation of C6_route_midpoint: the empty string decodes
to no points and yields no sample point. -/
theorem C6_route_midpoint_witness : getRouteMidpoint (some "") = none :=
  C6_route_midpoint.2.1 "" rfl

theorem pickGreener_cases (a b : EvaluatedRoute) :
    pickGreener a b = a ∨ pickGreener a b = b := by
  unfold pickGreener
  split_ifs
  · exact Or.inr rfl
  · exact Or.inl rfl

theorem pickGreener_left_le (a b : EvaluatedRoute) :
    a.greenIndex ≤ (pickGreener a b).greenIndex := by
  unfold pickGreener
  split_ifs with hb
  · exact le_of_lt hb
  · exact le_refl _

theorem pickGreener_right_le (a b : EvaluatedRoute) :
    b.greenIndex ≤ (pickGreener a b).greenIndex := by
  unfold pickGreener
  split_ifs with hb
  · exact le_refl _
  · exact le_of_not_lt hb

theorem foldl_pickGreener_mem (rest : List EvaluatedRoute) (a : EvaluatedRoute) :
    rest.foldl pickGreener a ∈ a :: rest := by
  induction rest generalizing a with
  | nil => simp
  | cons b bs ih =>
    simp only [List.foldl_cons]
    have h := ih (pickGreener a b)
    simp only [List.mem_cons] at h ⊢
    rcases h with h | h
    · rcases pickGreener_cases a b with hc | hc
      · left; rw [h, hc]
      · right; left; rw [h, hc]
    · right; right; exact h

theorem self_le_foldl_pickGreener (rest : List EvaluatedRoute) (a : EvaluatedRoute) :
    a.greenIndex ≤ (rest.foldl pickGreener a).greenIndex := by
  induction rest generalizing a with
  | nil => simp
  | cons b bs ih =>
    simp only [List.foldl_cons]
    exact le_trans (pickGreener_left_le a b) (ih (pickGreener a b))

theorem le_foldl_pickGreener (rest : List EvaluatedRoute) (a x : EvaluatedRoute)
    (hx : x ∈ a :: rest) :
    x.greenIndex ≤ (rest.foldl pickGreener a).greenIndex := by
  induction rest generalizing a with
  | nil =>
    rw [List.mem_singleton] at hx
    rw [hx]
    simp
  | cons b bs ih =>
    simp only [List.foldl_cons]
    rcases List.mem_cons.mp hx with h1 | h1
    · rw [h1]
      exact le_trans (pickGreener_left_le a b)
        (self_le_foldl_pickGreener bs (pickGreener a b))
    · rcases List.mem_cons.mp h1 with h2 | h2
      · rw [h2]
        exact le_trans (pickGreener_right_le a b)
          (self_le_foldl_pickGreener bs (pickGreener a b))
      · exact ih (pickGreener a b) (List.mem_cons.mpr (Or.inr h2))

theorem foldl_pickGreener_first (rest : List EvaluatedRoute) (a : EvaluatedRoute)
    (h : rest.foldl pickGreener a ≠ a) :
    ∃ pre suf, rest = pre ++ (rest.foldl pickGreener a) :: suf ∧
      a.greenIndex < (rest.foldl pickGreener a).greenIndex ∧
      ∀ x ∈ pre, x.greenIndex < (rest.foldl pickGreener a).greenIndex := by
  induction rest generalizing a with
  | nil => exact absurd rfl h
  | cons b bs ih =>
    simp only [List.foldl_cons] at h ⊢
    by_cases hb : b.greenIndex > a.greenIndex
    · have hfab : pickGreener a b = b := by simp [pickGreener, hb]
      rw [hfab] at h ⊢
      by_cases hr : bs.foldl pickGreener b = b
      · rw [hr] at h ⊢
        exact ⟨[], bs, rfl, hb, by simp⟩
      · obtain ⟨pre, suf, heq, hlt, hall⟩ := ih b hr
        refine ⟨b :: pre, suf, by rw [List.cons_append, ← heq], lt_trans hb hlt, ?_⟩
        intro x hx
        rcases List.mem_cons.mp hx with h1 | h1
        · rw [h1]; exact hlt
        · exact hall x h1
    · have hfab : pickGreener a b = a := by simp [pickGreener, hb]
      rw [hfab] at h ⊢
      obtain ⟨pre, suf, heq, hlt, hall⟩ := ih a h
      refine ⟨b :: pre, suf, by rw [List.cons_append, ← heq], hlt, ?_⟩
      intro x hx
      rcases List.mem_cons.mp hx with h1 | h1
      · rw [h1]; exact lt_of_le_of_lt (le_of_not_lt hb) hlt
      · exact hall x h1

/-- C2: when the reduce over a non-empty evaluated-route list yields a
route, that route is one of the list's elements, its greenIndex is the
maximum of the list, and every route earlier in the list has strictly
smaller greenIndex — so on a tie the earlier-indexed route wins, the
strict greater-than fold never replacing the current best; determinism
for fixed inputs is immediate since bestRoute is a pure function. -/
theorem C2_best_route_selection (l : List EvaluatedRoute) (r : EvaluatedRoute)
    (h : bestRoute l = .ok r) :
    r ∈ l ∧ (∀ x ∈ l, x.greenIndex ≤ r.greenIndex) ∧
      ∃ pre suf, l = pre ++ r :: suf ∧
        ∀ x ∈ pre, x.greenIndex < r.greenIndex := by
  match l with
  | [] =>
    simp only [bestRoute] at h
    exact Except.noConfusion h
  | a :: rest =>
    simp only [bestRoute, Except.ok.injEq] at h
    subst h
    refine ⟨foldl_pickGreener_mem rest a,
      fun x hx => le_foldl_pickGreener rest a x hx, ?_⟩
    by_cases ha : rest.foldl pickGreener a = a
    · exact ⟨[], rest, by rw [ha, List.nil_append], by simp⟩
    · obtain ⟨pre, suf, heq, hlt, hall⟩ := foldl_pickGreener_first rest a ha
      refine ⟨a :: pre, suf, by rw [List.cons_append, ← heq], ?_⟩
      intro x hx
      rcases List.mem_cons.mp hx with h1 | h1
      · rw [h1]; exact hlt
      · exact hall x h1

/-- Two evaluated routes with equal greenIndex 79, used to instantiate
the selection theorem on a tie. -/
def sampleRouteA : EvaluatedRoute :=
  { routeIndex := 0, distanceMeters := 1000, duration := "601s", aqi := 40,
    greenIndex := 79, solar := { solarIndex := 30, shadeLabel := "Low Shade" },
    encodedPolyline := none }

/-- Second sample route of the tie, with the larger routeIndex. -/
def sampleRouteB : EvaluatedRoute :=
  { routeIndex := 1, distanceMeters := 1200, duration := "650s", aqi := 90,
    greenIndex := 79, solar := { solarIndex := 40, shadeLabel := "Moderate Shade" },
    encodedPolyline := none }

/-- Concrete instantiation of C2_best_route_selection: on the 79-79 tie
the reduce returns the earlier route sampleRouteA. -/
theorem C2_best_route_selection_witness :
    sampleRouteA ∈ [sampleRouteA, sampleRouteB] :=
  (C2_best_route_selection [sampleRouteA, sampleRouteB] sampleRouteA rfl).1

/-- C4: a routing-provider failure, an air-quality failure during the
route loop, and an empty candidate-route list each abort the whole
evaluation: the caller gets a single error carrying the underlying cause
text (for the empty list, the TypeError message of the empty reduce), no
selection, and — the result being either an error or a complete
response — no partial evaluated-route list. -/
theorem C4_fatal_failures (env : Providers) :
    (∀ e, env.routing = .error e → getGreenRoute env = .error e) ∧
    (env.routing = .ok [] →
      getGreenRoute env = .error "Reduce of empty array with no initial value") ∧
    (∀ routes e, env.routing = .ok routes →
      evalRoutes env 0 routes = .error e → getGreenRoute env = .error e) ∧
    (∀ i r p e, getRouteMidpoint r.encodedPolyline = some p →
      env.airQuality p = .error e → evalRoute env i r = .error e) := by
  refine ⟨fun e he => ?_, fun he => ?_, fun routes e hr hev => ?_,
    fun i r p e hm ha => ?_⟩
  · simp only [getGreenRoute, he]
  · simp only [getGreenRoute, he, evalRoutes, bestRoute]
  · simp only [getGreenRoute, hr, hev]
  · simp only [evalRoute, hm, ha]

/-- A provider environment whose routing call fails outright. -/
def envRoutingFails : Providers :=
  { routing := .error "routes request failed"
    airQuality := fun _ => .error "air quality request failed"
    solar := fun _ => .error "solar request failed"
    gemini := fun _ => .error "gemini request failed" }

/-- Concrete instantiation of C4_fatal_failures: with the routing call
failing, the whole evaluation returns exactly that failure. -/
theorem C4_fatal_failures_witness :
    getGreenRoute envRoutingFails = .error "routes request failed" :=
  (C4_fatal_failures envRoutingFails).1 "routes request failed" rfl

/-- C5 counterexample: a successful lookup whose first index reports
aqi = 0 — the claim requires that first reported value (0) to be used,
but the || fallback replaces the falsy 0 with the default 100 even though
the provider did return an index. -/
theorem C5_aqi_counterexample :
    extractAqi { indexes := some [{ aqi := some 0 }] } = 100 ∧ (100 : ℚ) ≠ 0 :=
  ⟨rfl, by norm_num⟩

/-- C5 (amended): on a successful air-quality lookup the aqi used for
scoring is the first reported index value whenever that value exists and
is non-zero; aqi defaults to 100 when the provider returns no index list,
an empty one, a first entry without a value, or a reported value of 0,
which the || operator treats like a missing one. -/
theorem C5_aqi_extraction (air : AirQualityData) :
    (∀ entries entry v, air.indexes = some entries → entries.head? = some entry →
      entry.aqi = some v → v ≠ 0 → extractAqi air = v) ∧
    (air.indexes = none → extractAqi air = 100) ∧
    (∀ entries, air.indexes = some entries → entries.head? = none →
      extractAqi air = 100) ∧
    (∀ entries entry, air.indexes = some entries → entries.head? = some entry →
      (entry.aqi = none ∨ entry.aqi = some 0) → extractAqi air = 100) := by
  refine ⟨fun entries entry v h1 h2 h3 hv => ?_, fun h1 => ?_,
    fun entries h1 h2 => ?_, fun entries entry h1 h2 h3 => ?_⟩
  · unfold extractAqi; rw [h1]; simp only [h2, h3]; rw [if_neg hv]
  · unfold extractAqi; rw [h1]
  · unfold extractAqi; rw [h1]; simp only [h2]
  · rcases h3 with h3 | h3 <;>
      (unfold extractAqi; rw [h1]; simp only [h2, h3]) <;> try simp

/-- Concrete instantiation of C5_aqi_extraction: a non-zero first index
value 42 is used as reported. -/
theorem C5_aqi_extraction_witness :
    extractAqi { indexes := some [{ aqi := some 42 }] } = 42 :=
  (C5_aqi_extraction _).1 [{ aqi := some 42 }] { aqi := some 42 } 42
    rfl rfl rfl (by norm_num)

/-- C7 counterexample: a successful lookup reporting yearlySunlightHours
= 0 — a value below 1500, for which the claim requires solarIndex 50 —
yields 30, because the || default replaces the falsy 0 with 2000. -/
theorem C7_solar_counterexample :
    (0 : ℚ) < 1500 ∧
    (solarFromData { yearlySunlightHours := some 0 }).solarIndex = 30 ∧
    (30 : ℚ) ≠ 50 := by
  refine ⟨by norm_num, ?_, by norm_num⟩
  norm_num [solarFromData]

/-- C7 (amended): on a successful solar lookup, solarIndex is derived
from yearlySunlightHours with the default 2000 applied when the field is
absent or reports the falsy value 0: 50 when the effective value is
< 1500, 40 when < 2000, 30 otherwise; shadeLabel follows the >= 45 /
>= 35 thresholds on solarIndex, and "Unknown" is never produced by this
numeric mapping. -/
theorem solarFromData_label (data : SolarData) :
    (solarFromData data).shadeLabel = "High Shade" ∨
    (solarFromData data).shadeLabel = "Moderate Shade" ∨
    (solarFromData data).shadeLabel = "Low Shade" := by
  rcases hm : data.yearlySunlightHours with _ | v <;>
    simp only [solarFromData, hm] <;>
    split_ifs <;>
    simp

theorem C7_solar_mapping (data : SolarData) :
    (∀ v, data.yearlySunlightHours = some v → v ≠ 0 → v < 1500 →
      solarFromData data = { solarIndex := 50, shadeLabel := "High Shade" }) ∧
    (∀ v, data.yearlySunlightHours = some v → v ≠ 0 → 1500 ≤ v → v < 2000 →
      solarFromData data = { solarIndex := 40, shadeLabel := "Moderate Shade" }) ∧
    (∀ v, data.yearlySunlightHours = some v → v ≠ 0 → 2000 ≤ v →
      solarFromData data = { solarIndex := 30, shadeLabel := "Low Shade" }) ∧
    ((data.yearlySunlightHours = none ∨ data.yearlySunlightHours = some 0) →
      solarFromData data = { solarIndex := 30, shadeLabel := "Low Shade" }) ∧
    (solarFromData data).shadeLabel ≠ "Unknown" ∧
    (solarFromData data).shadeLabel =
      (if (solarFromData data).solarIndex ≥ 45 then "High Shade"
       else if (solarFromData data).solarIndex ≥ 35 then "Moderate Shade"
       else "Low Shade") := by
  refine ⟨fun v h1 hv h3 => ?_, fun v h1 hv h3 h4 => ?_, fun v h1 hv h3 => ?_,
    fun h1 => ?_, ?_, ?_⟩
  · simp only [solarFromData, h1]
    rw [if_neg hv, if_pos h3]
    norm_num
  · simp only [solarFromData, h1]
    rw [if_neg hv, if_neg (not_lt.mpr h3), if_pos h4]
    norm_num
  · simp only [solarFromData, h1]
    rw [if_neg hv, if_neg (not_lt.mpr (by linarith)), if_neg (not_lt.mpr h3)]
    norm_num
  · rcases h1 with h1 | h1 <;> simp only [solarFromData, h1] <;> norm_num
  · rcases solarFromData_label data with h | h | h <;> rw [h] <;> decide
  · rcases hm : data.yearlySunlightHours with _ | v <;>
      simp only [solarFromData, hm]

/-- Concrete instantiation of C7_solar_mapping: 1000 reported sunlight
hours maps to solarIndex 50 and "High Shade". -/
theorem C7_solar_mapping_witness :
    solarFromData { yearlySunlightHours := some 1000 } =
      { solarIndex := 50, shadeLabel := "High Shade" } :=
  (C7_solar_mapping _).1 1000 rfl (by norm_num) (by norm_num)

theorem evalRoute_ok (env : Providers) (i : Nat) (r : CandidateRoute)
    (hair : ∀ p, ∃ a, env.airQuality p = .ok a) :
    ∃ er, evalRoute env i r = .ok er := by
  cases hres : evalRoute env i r with
  | ok er => exact ⟨er, rfl⟩
  | error e =>
    exfalso
    cases hmid : getRouteMidpoint r.encodedPolyline with
    | none =>
      simp only [evalRoute, hmid] at hres
      exact Except.noConfusion hres
    | some p =>
      obtain ⟨a, ha⟩ := hair p
      simp only [evalRoute, hmid, ha] at hres
      exact Except.noConfusion hres

theorem evalRoutes_ok (env : Providers)
    (hair : ∀ p, ∃ a, env.airQuality p = .ok a) :
    ∀ (i : Nat) (routes : List CandidateRoute),
      ∃ l, evalRoutes env i routes = .ok l ∧ l.length = routes.length := by
  intro i routes
  induction routes generalizing i with
  | nil => exact ⟨[], rfl, rfl⟩
  | cons r rs ih =>
    obtain ⟨er, her⟩ := evalRoute_ok env i r hair
    obtain ⟨l, hl, hlen⟩ := ih (i + 1)
    refine ⟨er :: l, ?_, by simp [hlen]⟩
    simp only [evalRoutes]
    rw [her, hl]

theorem getGreenRoute_ok (env : Providers) (routes : List CandidateRoute)
    (hr : env.routing = .ok routes) (hne : routes ≠ [])
    (hair : ∀ p, ∃ a, env.airQuality p = .ok a) :
    ∃ resp, getGreenRoute env = .ok resp := by
  obtain ⟨l, hl, hlen⟩ := evalRoutes_ok env hair 0 routes
  cases hres : getGreenRoute env with
  | ok resp => exact ⟨resp, rfl⟩
  | error e =>
    exfalso
    cases l with
    | nil =>
      exact absurd (List.length_eq_zero.mp hlen.symm).symm (Ne.symm hne)
    | cons a rest =>
      simp only [getGreenRoute, hr, hl, bestRoute] at hres
      exact Except.noConfusion hres

/-- C8: any failure of the solar lookup is absorbed — getSolarIndex
returns the default {solarIndex: 30, shadeLabel: "Unknown"} instead of
propagating — and the route evaluation and the whole request still
succeed whatever the solar provider does (the route's solar field always
being getSolarIndex of the solar call's outcome). -/
theorem C8_solar_fault_tolerance (env : Providers) :
    (∀ e, getSolarIndex (.error e) =
      { solarIndex := 30, shadeLabel := "Unknown" }) ∧
    (∀ i r p air, getRouteMidpoint r.encodedPolyline = some p →
      env.airQuality p = .ok air →
      ∃ er, evalRoute env i r = .ok er ∧
        er.solar = getSolarIndex (env.solar p)) ∧
    (∀ routes, env.routing = .ok routes → routes ≠ [] →
      (∀ p, ∃ a, env.airQuality p = .ok a) →
      ∃ resp, getGreenRoute env = .ok resp) := by
  refine ⟨fun e => rfl, fun i r p air hm ha => ?_,
    fun routes hr hne hair => getGreenRoute_ok env routes hr hne hair⟩
  refine
    ⟨{ routeIndex := i,
       distanceMeters := r.distanceMeters,
       duration := r.duration,
       aqi := extractAqi air,
       greenIndex := calculateGreenIndex r.distanceMeters (extractAqi air)
                       (getSolarIndex (env.solar p)).solarIndex,
       solar := getSolarIndex (env.solar p),
       encodedPolyline := r.encodedPolyline }, ?_, rfl⟩
  simp only [evalRoute, hm, ha]

/-- A provider environment whose solar call always fails while routing
and air quality succeed; the single candidate route carries the standard
example polyline. -/
def envSolarFails : Providers :=
  { routing := .ok [{ distanceMeters := 1000,
                      duration := "601s",
                      encodedPolyline := some "_p~iF~ps|U_ulLnnqC" }]
    airQuality := fun _ => .ok { indexes := some [{ aqi := some 40 }] }
    solar := fun _ => .error "solar request failed"
    gemini := fun _ => .ok "explanatory text" }

/-- Concrete instantiation of C8_solar_fault_tolerance: with the solar
provider down, the defaults are substituted and the whole request still
succeeds. -/
theorem C8_solar_fault_tolerance_witness :
    getSolarIndex (.error "solar request failed") =
      { solarIndex := 30, shadeLabel := "Unknown" } ∧
    ∃ resp, getGreenRoute envSolarFails = .ok resp :=
  ⟨(C8_solar_fault_tolerance envSolarFails).1 "solar request failed",
   (C8_solar_fault_tolerance envSolarFails).2.2
     [{ distanceMeters := 1000,
        duration := "601s",
        encodedPolyline := some "_p~iF~ps|U_ulLnnqC" }] rfl (by simp)
     (fun p => ⟨{ indexes := some [{ aqi := some 40 }] }, rfl⟩)⟩

/-- C9: on any failure of the explanation collaborator the explanation is
exactly the fixed fallback sentence — byte-identical, being one fixed
string constant — and the evaluation still succeeds: a response produced
with an always-failing collaborator carries exactly that sentence. -/
theorem C9_explanation_fallback (env : Providers) :
    (∀ e, getGeminiExplanation (.error e) = fallbackSentence) ∧
    (∀ resp, (∀ x, ∃ e, env.gemini x = .error e) →
      getGreenRoute env = .ok resp → resp.explanation = fallbackSentence) ∧
    fallbackSentence =
      "This route is recommended because it has cleaner air, a reasonable walking distance, and better shade for comfort." := by
  refine ⟨fun e => rfl, fun resp hg h => ?_, rfl⟩
  have hgem : ∀ x, getGeminiExplanation (env.gemini x) = fallbackSentence := by
    intro x
    obtain ⟨e, he⟩ := hg x
    rw [he]
    rfl
  cases hr : env.routing with
  | error e =>
    simp only [getGreenRoute, hr] at h
    exact Except.noConfusion h
  | ok routes =>
    cases hev : evalRoutes env 0 routes with
    | error e =>
      simp only [getGreenRoute, hr, hev] at h
      exact Except.noConfusion h
    | ok l =>
      cases l with
      | nil =>
        simp only [getGreenRoute, hr, hev, bestRoute] at h
        exact Except.noConfusion h
      | cons a rest =>
        simp only [getGreenRoute, hr, hev, bestRoute, hgem,
          Except.ok.injEq] at h
        subst h
        rfl

/-- A provider environment whose explanation call always fails while the
rest succeed. -/
def envGeminiFails : Providers :=
  { routing := .ok [{ distanceMeters := 1000,
                      duration := "601s",
                      encodedPolyline := none }]
    airQuality := fun _ => .ok { indexes := some [{ aqi := some 40 }] }
    solar := fun _ => .ok { yearlySunlightHours := some 1000 }
    gemini := fun _ => .error "gemini request failed" }

/-- The response the pipeline produces for envGeminiFails: the single
route has no encoded path, so the defaults aqi = 100 and solarIndex = 30
apply and greenIndex = 0.6 * 80 + 0.3 * 30 + 0.1 * 100 = 67. -/
def envGeminiFailsResponse : GreenRouteResponse :=
  { message := "Green corridor selected"
    selected_route :=
      { routeIndex := 0, distanceMeters := 1000, duration := "601s",
        aqi := 100, greenIndex := 67,
        solar := { solarIndex := 30, shadeLabel := "Unknown" },
        encodedPolyline := none }
    alternative_routes :=
      [{ routeIndex := 0, distanceMeters := 1000, duration := "601s",
         aqi := 100, greenIndex := 67,
         solar := { solarIndex := 30, shadeLabel := "Unknown" },
         encodedPolyline := none }]
    explanation := fallbackSentence }

theorem getGreenRoute_envGeminiFails :
    getGreenRoute envGeminiFails = .ok envGeminiFailsResponse := by
  norm_num [getGreenRoute, envGeminiFails, evalRoutes, evalRoute, getRouteMidpoint,
    extractAqi, getSolarIndex, solarFromData, bestRoute, pickGreener,
    getGeminiExplanation, calculateGreenIndex, getAQIScore, getDistanceScore,
    envGeminiFailsResponse, fallbackSentence]

/-- Concrete instantiation of C9_explanation_fallback: the response for
envGeminiFails carries exactly the fallback sentence. -/
theorem C9_explanation_fallback_witness :
    envGeminiFailsResponse.explanation = fallbackSentence :=
  (C9_explanation_fallback envGeminiFails).2.1 envGeminiFailsResponse
    (fun x => ⟨"gemini request failed", rfl⟩) getGreenRoute_envGeminiFails

/-- C10: every successful evaluation's selected route is an element of
the returned alternatives list — the same record, not a separately
constructed one. -/
theorem C10_selected_among_alternatives (env : Providers)
    (resp : GreenRouteResponse) (h : getGreenRoute env = .ok resp) :
    resp.selected_route ∈ resp.alternative_routes := by
  cases hr : env.routing with
  | error e =>
    simp only [getGreenRoute, hr] at h
    exact Except.noConfusion h
  | ok routes =>
    cases hev : evalRoutes env 0 routes with
    | error e =>
      simp only [getGreenRoute, hr, hev] at h
      exact Except.noConfusion h
    | ok l =>
      cases l with
      | nil =>
        simp only [getGreenRoute, hr, hev, bestRoute] at h
        exact Except.noConfusion h
      | cons a rest =>
        simp only [getGreenRoute, hr, hev, bestRoute, Except.ok.injEq] at h
        subst h
        exact foldl_pickGreener_mem rest a

/-- Concrete instantiation of C10_selected_among_alternatives on the
envGeminiFails evaluation. -/
theorem C10_selected_among_alternatives_witness :
    envGeminiFailsResponse.selected_route ∈
      envGeminiFailsResponse.alternative_routes :=
  C10_selected_among_alternatives envGeminiFails envGeminiFailsResponse
    getGreenRoute_envGeminiFails

end EcoPath
